import Mathlib

/-!
Verification of the refresh-token session engine of the affordly backend.

The embedding models instants as natural numbers (milliseconds since the
epoch, as produced by Date.now and compared by Date comparison), the
session collection as a list of session records, and the user directory
as a list of user records.  Each HTTP flow of the auth controller becomes
a pure function from the relevant state and request data to the resulting
state and response.  Store-assigned ids and freshly generated refresh
secrets are passed in as parameters.
-/

namespace Affordly

/-- Device identity carried by a session (models `DeviceInfo` of
`src/models/RefreshToken.ts`). -/
structure DeviceInfo where
  deviceId : String
  deviceName : String
  platform : String
  appVersion : Option String := none
  osVersion : Option String := none
deriving DecidableEq, Repr

/-- Mutable usage telemetry of a session (models `SecurityInfo` of
`src/models/RefreshToken.ts`). -/
structure SecurityInfo where
  ipAddress : Option String := none
  userAgent : Option String := none
  lastUsedAt : Nat
  usageCount : Nat
  suspiciousActivity : Bool
deriving DecidableEq, Repr

/-- One refresh-token session record (models the `RefreshToken` document of
`src/models/RefreshToken.ts`; `createdAt` comes from the schema timestamps). -/
structure Session where
  id : Nat
  userId : Nat
  token : String
  expiresAt : Nat
  createdAt : Nat
  revokedAt : Option Nat := none
  isRevoked : Bool := false
  deviceInfo : DeviceInfo
  securityInfo : SecurityInfo
  replacedByToken : Option String := none
deriving DecidableEq, Repr

/-- Modelled from the spec: the user directory contract consumed by the
session manager (`findByEmail`, `findById`, `isActive`, `comparePassword`).
The `User` model file itself is not among the sources; only its consumers
are.  `comparePassword` is modelled as equality of the presented password
with the stored one. -/
structure User where
  id : Nat
  email : String
  password : String
  isActive : Bool
deriving DecidableEq, Repr

/-- The session collection. -/
abbrev Store := List Session

/-- `getRefreshTokenExpiryDate` of `src/utils/jwt.ts`: 30 days from now
(modelled as 30 times 86400000 milliseconds). -/
def getRefreshTokenExpiryDate (now : Nat) : Nat :=
  now + 30 * 86400000

/-- `RefreshToken.findOne (\x7b token \x7d)`: first session holding the given
secret (the schema declares `token` unique). -/
def findOneByToken (store : Store) (token : String) : Option Session :=
  store.find? (fun s => s.token == token)

/-- `RefreshToken.findOne (\x7b token, isRevoked: false \x7d)`: first session
holding the given secret and not revoked. -/
def findOneByTokenUnrevoked (store : Store) (token : String) : Option Session :=
  store.find? (fun s => s.token == token && !s.isRevoked)

/-- A mongoose `document.save()` on a loaded session: the stored record with
the same id is overwritten with the mutated document. -/
def saveById (store : Store) (doc : Session) : Store :=
  store.map (fun s => if s.id == doc.id then doc else s)

/-- `RefreshToken.updateMany (filter, \x7b $set: \x7b isRevoked: true,
revokedAt: new Date() \x7d \x7d)`: every session matching the filter is marked
revoked at `now`; no other field is touched. -/
def updateManyRevoke (store : Store) (matched : Session → Bool) (now : Nat) : Store :=
  store.map (fun s =>
    if matched s then { s with isRevoked := true, revokedAt := some now } else s)

/-- The active-session query used by `getActiveSessions`, `detectSuspiciousActivity`
and the admin dashboard: `isRevoked: false` and `expiresAt: \x7b $gt: now \x7d`. -/
def activeSessionsFor (store : Store) (userId : Nat) (now : Nat) : Store :=
  store.filter (fun s => s.userId == userId && !s.isRevoked && now < s.expiresAt)

/-- `detectSuspiciousActivity` of the auth controller: flag when the user has
more than 5 active sessions, or when sessions created within the last hour
(3600000 ms; regardless of revocation or expiry) span more than 3 distinct
device ids.  Real `Date.now()` values far exceed 3600000, so the truncated
subtraction coincides with the source arithmetic. -/
def detectSuspiciousActivity (store : Store) (userId : Nat) (now : Nat) : Bool :=
  let activeTokens := store.filter
    (fun s => s.userId == userId && !s.isRevoked && now < s.expiresAt)
  if activeTokens.length > 5 then
    true
  else
    let recentTokens := store.filter
      (fun s => s.userId == userId && now - 3600000 < s.createdAt)
    let uniqueDevices := (recentTokens.map (fun s => s.deviceInfo.deviceId)).dedup
    if uniqueDevices.length > 3 then
      true
    else
      false

/-- Error responses of the `signIn` flow. -/
inductive SignInError where
  | invalidCredentials
  | accountDeactivated
deriving DecidableEq, Repr

/-- The same-device filter of `signIn`: sessions of this user, on this
device, not yet revoked (expiry is not consulted). -/
def sameDeviceUnrevoked (userId : Nat) (deviceId : String) (s : Session) : Bool :=
  s.userId == userId && s.deviceInfo.deviceId == deviceId && !s.isRevoked

/-- The fresh session record built by `signIn` (its `securityInfo` comes from
`getSecurityInfo`, with `usageCount = 1`, then `suspiciousActivity` is set
from the detector). -/
def signInSession (userId : Nat) (deviceInfo : DeviceInfo)
    (ipAddress userAgent : Option String) (isSuspicious : Bool)
    (now : Nat) (newSecret : String) (newId : Nat) : Session :=
  let sec : SecurityInfo :=
    { ipAddress := ipAddress, userAgent := userAgent, lastUsedAt := now,
      usageCount := 1, suspiciousActivity := isSuspicious }
  { id := newId, userId := userId, token := newSecret,
    expiresAt := getRefreshTokenExpiryDate now, createdAt := now,
    revokedAt := none, isRevoked := false, deviceInfo := deviceInfo,
    securityInfo := sec, replacedByToken := none }

/-- `signIn` of the auth controller.  Looks up the user by email, rejects a
missing user or wrong password as invalid credentials and a deactivated user
as deactivated; otherwise runs the anomaly detector on the pre-state, revokes
all unrevoked sessions of the same user and device, and appends the freshly
created session.  Returns the resulting store and either the error or the
created session (whose `suspiciousActivity` field also drives the advisory
warning of the response). -/
def signIn (users : List User) (store : Store) (email password : String)
    (deviceInfo : DeviceInfo) (ipAddress userAgent : Option String)
    (now : Nat) (newSecret : String) (newId : Nat) :
    Store × Except SignInError Session :=
  match users.find? (fun u => u.email == email) with
  | none => (store, .error .invalidCredentials)
  | some user =>
    if !user.isActive then
      (store, .error .accountDeactivated)
    else if !(password == user.password) then
      (store, .error .invalidCredentials)
    else
      let isSuspicious := detectSuspiciousActivity store user.id now
      let store1 := updateManyRevoke store
        (sameDeviceUnrevoked user.id deviceInfo.deviceId) now
      let created := signInSession user.id deviceInfo ipAddress userAgent
        isSuspicious now newSecret newId
      (store1 ++ [created], .ok created)

/-- The fresh session record built by `signUp` (`usageCount = 1`,
`suspiciousActivity = false`, no revocation of other sessions). -/
def signUpSession (userId : Nat) (deviceInfo : DeviceInfo)
    (ipAddress userAgent : Option String) (now : Nat)
    (newSecret : String) (newId : Nat) : Session :=
  let sec : SecurityInfo :=
    { ipAddress := ipAddress, userAgent := userAgent, lastUsedAt := now,
      usageCount := 1, suspiciousActivity := false }
  { id := newId, userId := userId, token := newSecret,
    expiresAt := getRefreshTokenExpiryDate now, createdAt := now,
    revokedAt := none, isRevoked := false, deviceInfo := deviceInfo,
    securityInfo := sec, replacedByToken := none }

/-- The store effect of `signUp`: the fresh session is appended; nothing else
is touched. -/
def signUp (store : Store) (userId : Nat) (deviceInfo : DeviceInfo)
    (ipAddress userAgent : Option String) (now : Nat)
    (newSecret : String) (newId : Nat) : Store :=
  store ++ [signUpSession userId deviceInfo ipAddress userAgent now newSecret newId]

/-- Error responses of the `refreshAccessToken` flow. -/
inductive RefreshError where
  | invalidRefreshToken
  | refreshTokenExpired
  | userInactive
deriving DecidableEq, Repr

/-- The read/validation phase of `refreshAccessToken`, everything before the
first write: find the session by secret among unrevoked ones (missing or
revoked yields invalid token), reject it as expired when `expiresAt < now`,
and reject a missing or inactive owning user.  On success the loaded
document is returned. -/
def refreshFind (users : List User) (store : Store) (secret : String) (now : Nat) :
    Except RefreshError Session :=
  match findOneByTokenUnrevoked store secret with
  | none => .error .invalidRefreshToken
  | some storedToken =>
    if storedToken.expiresAt < now then
      .error .refreshTokenExpired
    else
      match users.find? (fun u => u.id == storedToken.userId) with
      | none => .error .userInactive
      | some user =>
        if !user.isActive then
          .error .userInactive
        else
          .ok storedToken

/-- The in-memory mutation of the old session inside `refreshAccessToken`:
touch `securityInfo` (`lastUsedAt = now`, `usageCount + 1`, ip updated) and
mark the rotation (`isRevoked`, `revokedAt = now`, `replacedByToken` set to
the new secret).  All of this is persisted by the single save of the old
document. -/
def rotatedOldSession (storedToken : Session) (reqIp : Option String) (now : Nat)
    (newSecret : String) : Session :=
  let sec : SecurityInfo :=
    { storedToken.securityInfo with
      lastUsedAt := now,
      usageCount := storedToken.securityInfo.usageCount + 1,
      ipAddress := reqIp }
  { storedToken with
    securityInfo := sec,
    isRevoked := true,
    revokedAt := some now,
    replacedByToken := some newSecret }

/-- The successor session built by `refreshAccessToken`, reading the old
document after its mutation: `deviceInfo`, `ipAddress`, `userAgent` and
`suspiciousActivity` are carried over, `usageCount` is reset to 0,
`lastUsedAt` is `now`, and the expiry window is fresh. -/
def rotationSuccessor (mutated : Session) (now : Nat)
    (newSecret : String) (newId : Nat) : Session :=
  let sec : SecurityInfo :=
    { ipAddress := mutated.securityInfo.ipAddress,
      userAgent := mutated.securityInfo.userAgent, lastUsedAt := now,
      usageCount := 0,
      suspiciousActivity := mutated.securityInfo.suspiciousActivity }
  { id := newId, userId := mutated.userId, token := newSecret,
    expiresAt := getRefreshTokenExpiryDate now, createdAt := now,
    revokedAt := none, isRevoked := false, deviceInfo := mutated.deviceInfo,
    securityInfo := sec, replacedByToken := none }

/-- The store state after the first write of the commit phase (the save of the
rotated old document), before the successor is inserted. -/
def refreshIntermediate (store : Store) (storedToken : Session)
    (reqIp : Option String) (now : Nat) (newSecret : String) : Store :=
  saveById store (rotatedOldSession storedToken reqIp now newSecret)

/-- The write phase of `refreshAccessToken`: save the rotated old document,
then insert the successor session.  `storedToken` is the document as loaded
by the read phase. -/
def refreshCommit (store : Store) (storedToken : Session) (reqIp : Option String)
    (now : Nat) (newSecret : String) (newId : Nat) : Store :=
  let mutated := rotatedOldSession storedToken reqIp now newSecret
  let store1 := saveById store mutated
  store1 ++ [rotationSuccessor mutated now newSecret newId]

/-- `refreshAccessToken` of the auth controller, run to completion in
isolation: the read phase followed by the write phase.  On failure the store
is returned untouched together with the error; on success the new secret is
returned. -/
def refreshAccessToken (users : List User) (store : Store) (secret : String)
    (reqIp : Option String) (now : Nat) (newSecret : String) (newId : Nat) :
    Store × Except RefreshError String :=
  match refreshFind users store secret now with
  | .error e => (store, .error e)
  | .ok storedToken =>
    (refreshCommit store storedToken reqIp now newSecret newId, .ok newSecret)

/-- `logout` of the auth controller: a missing token field is a 400; otherwise
the session holding the secret, if any, is marked revoked at `now` and saved,
and the response is 200 in both the found and the not-found case. -/
def logout (store : Store) (refreshToken : Option String) (now : Nat) :
    Nat × Store :=
  match refreshToken with
  | none => (400, store)
  | some secret =>
    match findOneByToken store secret with
    | none => (200, store)
    | some storedToken =>
      (200, saveById store { storedToken with isRevoked := true, revokedAt := some now })

/-- `logoutAllDevices` of the auth controller: every unrevoked session of the
user is marked revoked at `now`; the count of affected sessions is returned. -/
def logoutAllDevices (store : Store) (userId : Nat) (now : Nat) : Store × Nat :=
  let affected := (store.filter (fun s => s.userId == userId && !s.isRevoked)).length
  (updateManyRevoke store (fun s => s.userId == userId && !s.isRevoked) now, affected)

/-- `revokeSession` of the auth controller: the session with the given id
owned by the caller is marked revoked at `now` and saved (404 when absent). -/
def revokeSession (store : Store) (userId : Nat) (sessionId : Nat) (now : Nat) :
    Nat × Store :=
  match store.find? (fun s => s.id == sessionId && s.userId == userId) with
  | none => (404, store)
  | some session =>
    (200, saveById store { session with isRevoked := true, revokedAt := some now })

/-- `toggleUserStatus` of the admin controller: flip the user's `isActive`
flag; when the user becomes inactive, every unrevoked session of that user is
marked revoked at `now`.  A missing user (404) leaves both collections
untouched. -/
def toggleUserStatus (users : List User) (store : Store) (userId : Nat) (now : Nat) :
    List User × Store :=
  match users.find? (fun u => u.id == userId) with
  | none => (users, store)
  | some user =>
    let toggled := { user with isActive := !user.isActive }
    let users1 := users.map (fun u => if u.id == userId then toggled else u)
    let store1 :=
      if !toggled.isActive then
        updateManyRevoke store (fun s => s.userId == userId && !s.isRevoked) now
      else
        store
    (users1, store1)

/-! ## Example fixtures used by witnesses and counterexamples -/

/-- A device used in concrete scenarios. -/
def exDevA : DeviceInfo :=
  { deviceId := "A", deviceName := "phone", platform := "ios" }

/-- A second device used in concrete scenarios. -/
def exDevB : DeviceInfo :=
  { deviceId := "B", deviceName := "tablet", platform := "web" }

/-- An active user used in concrete scenarios. -/
def exUser : User :=
  { id := 1, email := "u@example.com", password := "pw", isActive := true }

/-- Baseline telemetry for fixture sessions. -/
def exSecInfo : SecurityInfo :=
  { lastUsedAt := 0, usageCount := 1, suspiciousActivity := false }

/-- A fixture session of user 1 with the given id, secret, device and expiry,
created at instant 0. -/
def mkExSession (i : Nat) (tok : String) (dev : DeviceInfo) (expiry : Nat) : Session :=
  { id := i, userId := 1, token := tok, expiresAt := expiry, createdAt := 0,
    deviceInfo := dev, securityInfo := exSecInfo }

/-- A long-lived usable session holding secret `tok1`. -/
def exSessionLong : Session := mkExSession 10 "tok1" exDevA 9999999999

/-- A session whose expiry instant is exactly 100. -/
def exSessionAt100 : Session := mkExSession 10 "tok1" exDevA 100

/-- An already-revoked session (revoked at instant 5). -/
def exRevokedSession : Session :=
  { mkExSession 10 "tok1" exDevA 9999999999 with isRevoked := true, revokedAt := some 5 }

/-! ## Helper lemmas about the store primitives -/

theorem mem_saveById {store : Store} {doc s1 : Session} (h : s1 ∈ saveById store doc) :
    s1 = doc ∨ (s1 ∈ store ∧ s1.id ≠ doc.id) := by
  unfold saveById at h
  rcases List.mem_map.mp h with ⟨s0, hs0, heq⟩
  by_cases hid : (s0.id == doc.id) = true
  · left
    rw [if_pos hid] at heq
    exact heq.symm
  · right
    rw [if_neg hid] at heq
    refine ⟨heq ▸ hs0, ?_⟩
    intro hcontra
    exact hid (by rw [← heq] at hcontra; exact beq_iff_eq.mpr hcontra)

theorem mem_updateManyRevoke {store : Store} {matched : Session → Bool} {now : Nat}
    {s1 : Session} (h : s1 ∈ updateManyRevoke store matched now) :
    ∃ s0 ∈ store, s1 = s0 ∨
      s1 = { s0 with isRevoked := true, revokedAt := some now } := by
  unfold updateManyRevoke at h
  rcases List.mem_map.mp h with ⟨s0, hs0, heq⟩
  refine ⟨s0, hs0, ?_⟩
  by_cases hm : matched s0 = true
  · right
    simpa [hm] using heq.symm
  · left
    simpa [hm] using heq.symm

theorem length_saveById (store : Store) (doc : Session) :
    (saveById store doc).length = store.length := by
  unfold saveById
  exact List.length_map _ _

/-- `refreshFind` succeeding means the loaded document is a member of the
store, holds the presented secret and is unrevoked. -/
theorem refreshFind_ok_facts {users : List User} {store : Store} {secret : String}
    {now : Nat} {storedToken : Session}
    (h : refreshFind users store secret now = .ok storedToken) :
    storedToken ∈ store ∧ storedToken.token = secret ∧
      storedToken.isRevoked = false ∧ ¬ storedToken.expiresAt < now := by
  unfold refreshFind findOneByTokenUnrevoked at h
  split at h
  · exact absurd h (by simp)
  · rename_i cand hfind
    split at h
    · exact absurd h (by simp)
    · rename_i hexp
      split at h
      · exact absurd h (by simp)
      · rename_i user huser
        split at h
        · exact absurd h (by simp)
        · cases h
          have hmem : storedToken ∈ store := List.mem_of_find?_eq_some hfind
          have hpred := List.find?_some hfind
          simp only [Bool.and_eq_true, beq_iff_eq, Bool.not_eq_true'] at hpred
          exact ⟨hmem, hpred.1, hpred.2, hexp⟩

/-! ## C1: successful refresh rotates the old session, then creates its successor -/

/-- C1: for every successful refresh of a stored session (found by its secret,
not revoked, not expired, owning user active), the operation touches the old
session's telemetry (`lastUsedAt = now`, `usageCount` incremented, ip
updated), marks it rotated (`isRevoked`, `revokedAt = now`, `replacedByToken`
equal to the freshly generated secret), and only then creates exactly one new
session carrying forward the device identity, ip, user agent and suspicion
flag, with `usageCount` reset to 0, `lastUsedAt = now` and a fresh expiry of
now plus 30 days; in the intermediate state after the rotation write and
before the insertion, the old secret is already unusable and the new secret
does not exist yet. -/
theorem refresh_success_rotation_spec
    (users : List User) (store : Store) (secret : String) (reqIp : Option String)
    (now : Nat) (newSecret : String) (newId : Nat) (storedToken : Session)
    (hfind : refreshFind users store secret now = .ok storedToken)
    (hfresh : ∀ s ∈ store, s.token ≠ newSecret)
    (huniq : ∀ s ∈ store, s.token = secret → s.id = storedToken.id) :
    refreshAccessToken users store secret reqIp now newSecret newId =
      (refreshIntermediate store storedToken reqIp now newSecret ++
        [rotationSuccessor (rotatedOldSession storedToken reqIp now newSecret)
          now newSecret newId],
       .ok newSecret) ∧
    (refreshAccessToken users store secret reqIp now newSecret newId).1.length
      = store.length + 1 ∧
    (rotatedOldSession storedToken reqIp now newSecret).securityInfo.lastUsedAt = now ∧
    (rotatedOldSession storedToken reqIp now newSecret).securityInfo.usageCount
      = storedToken.securityInfo.usageCount + 1 ∧
    (rotatedOldSession storedToken reqIp now newSecret).securityInfo.ipAddress = reqIp ∧
    (rotatedOldSession storedToken reqIp now newSecret).isRevoked = true ∧
    (rotatedOldSession storedToken reqIp now newSecret).revokedAt = some now ∧
    (rotatedOldSession storedToken reqIp now newSecret).replacedByToken = some newSecret ∧
    (rotationSuccessor (rotatedOldSession storedToken reqIp now newSecret)
        now newSecret newId).deviceInfo = storedToken.deviceInfo ∧
    (rotationSuccessor (rotatedOldSession storedToken reqIp now newSecret)
        now newSecret newId).securityInfo.ipAddress = reqIp ∧
    (rotationSuccessor (rotatedOldSession storedToken reqIp now newSecret)
        now newSecret newId).securityInfo.userAgent = storedToken.securityInfo.userAgent ∧
    (rotationSuccessor (rotatedOldSession storedToken reqIp now newSecret)
        now newSecret newId).securityInfo.suspiciousActivity
      = storedToken.securityInfo.suspiciousActivity ∧
    (rotationSuccessor (rotatedOldSession storedToken reqIp now newSecret)
        now newSecret newId).securityInfo.usageCount = 0 ∧
    (rotationSuccessor (rotatedOldSession storedToken reqIp now newSecret)
        now newSecret newId).securityInfo.lastUsedAt = now ∧
    (rotationSuccessor (rotatedOldSession storedToken reqIp now newSecret)
        now newSecret newId).expiresAt = now + 30 * 86400000 ∧
    (rotationSuccessor (rotatedOldSession storedToken reqIp now newSecret)
        now newSecret newId).token = newSecret ∧
    (rotationSuccessor (rotatedOldSession storedToken reqIp now newSecret)
        now newSecret newId).isRevoked = false ∧
    findOneByTokenUnrevoked
      (refreshIntermediate store storedToken reqIp now newSecret) secret = none ∧
    findOneByToken
      (refreshIntermediate store storedToken reqIp now newSecret) newSecret = none := by
  have hfacts := refreshFind_ok_facts hfind
  have hmain : refreshAccessToken users store secret reqIp now newSecret newId =
      (refreshIntermediate store storedToken reqIp now newSecret ++
        [rotationSuccessor (rotatedOldSession storedToken reqIp now newSecret)
          now newSecret newId],
       .ok newSecret) := by
    unfold refreshAccessToken
    rw [hfind]
    rfl
  refine ⟨hmain, ?_, rfl, rfl, rfl, rfl, rfl, rfl, rfl, rfl, rfl, rfl, rfl, rfl, rfl,
    rfl, rfl, ?_, ?_⟩
  · rw [hmain]
    simp only [List.length_append, List.length_cons, List.length_nil,
      refreshIntermediate, length_saveById]
  · unfold findOneByTokenUnrevoked
    rw [List.find?_eq_none]
    intro s hs
    rcases mem_saveById hs with heq | ⟨hmem, hid⟩
    · subst heq
      simp [rotatedOldSession]
    · intro hpred
      have htok : s.token = secret := by
        have := (Bool.and_eq_true _ _).mp hpred
        exact beq_iff_eq.mp this.1
      exact hid (huniq s hmem htok)
  · unfold findOneByToken
    rw [List.find?_eq_none]
    intro s hs
    rcases mem_saveById hs with heq | ⟨hmem, _⟩
    · subst heq
      have : storedToken.token ≠ newSecret := hfresh storedToken hfacts.1
      simp [rotatedOldSession, this]
    · have : s.token ≠ newSecret := hfresh s hmem
      simp [this]

/-- Concrete instantiation of C1: refreshing the long-lived fixture session
at instant 50 yields the rotated store and the new secret. -/
theorem refresh_success_rotation_spec_witness :
    refreshAccessToken [exUser] [exSessionLong] "tok1" (some "ip") 50 "tok2" 11 =
      (refreshIntermediate [exSessionLong] exSessionLong (some "ip") 50 "tok2" ++
        [rotationSuccessor (rotatedOldSession exSessionLong (some "ip") 50 "tok2")
          50 "tok2" 11],
       .ok "tok2") :=
  (refresh_success_rotation_spec [exUser] [exSessionLong] "tok1" (some "ip") 50
    "tok2" 11 exSessionLong rfl (by decide) (by decide)).1

/-! ## C2: refresh failure classification -/

/-- C2 counterexample: a session whose `expiresAt` equals the current instant
is accepted by refresh (the code compares with strict less-than), not
rejected as expired as the claim requires. -/
theorem refresh_expiry_boundary_counterexample :
    exSessionAt100.expiresAt = 100 ∧
    (refreshAccessToken [exUser] [exSessionAt100] "tok1" (some "ip") 100 "tok2" 11).2
      = .ok "tok2" ∧
    (refreshAccessToken [exUser] [exSessionAt100] "tok1" (some "ip") 100 "tok2" 11).2
      ≠ .error .refreshTokenExpired := by
  have h2 : (refreshAccessToken [exUser] [exSessionAt100] "tok1" (some "ip") 100
      "tok2" 11).2 = .ok "tok2" := rfl
  refine ⟨rfl, h2, ?_⟩
  rw [h2]
  simp

/-- C2 (amended): refresh fails with `InvalidRefreshToken` exactly when no
unrevoked session holds the presented secret (covering both an unknown secret
and a revoked session); given the session is found, it fails with
`RefreshTokenExpired` exactly when `expiresAt < now` (a session whose
`expiresAt` equals the current instant is accepted, not rejected); given it
is found and unexpired, it fails with `UserInactive` exactly when the owning
user is missing or deactivated; and every failure leaves the store
unchanged. -/
theorem refresh_failure_classification
    (users : List User) (store : Store) (secret : String) (reqIp : Option String)
    (now : Nat) (newSecret : String) (newId : Nat) :
    ((refreshAccessToken users store secret reqIp now newSecret newId).2
        = .error .invalidRefreshToken ↔
      findOneByTokenUnrevoked store secret = none) ∧
    (∀ storedToken, findOneByTokenUnrevoked store secret = some storedToken →
      ((refreshAccessToken users store secret reqIp now newSecret newId).2
          = .error .refreshTokenExpired ↔ storedToken.expiresAt < now)) ∧
    (∀ storedToken, findOneByTokenUnrevoked store secret = some storedToken →
      ¬ storedToken.expiresAt < now →
      ((refreshAccessToken users store secret reqIp now newSecret newId).2
          = .error .userInactive ↔
        (users.find? (fun u => u.id == storedToken.userId) = none ∨
          ∃ user, users.find? (fun u => u.id == storedToken.userId) = some user ∧
            user.isActive = false))) ∧
    (∀ e, (refreshAccessToken users store secret reqIp now newSecret newId).2
        = .error e →
      (refreshAccessToken users store secret reqIp now newSecret newId).1 = store) := by
  cases hfind : findOneByTokenUnrevoked store secret with
  | none =>
    have hres : refreshAccessToken users store secret reqIp now newSecret newId
        = (store, .error .invalidRefreshToken) := by
      unfold refreshAccessToken refreshFind
      rw [hfind]
    rw [hres]
    simp [hfind]
  | some cand =>
    by_cases hexp : cand.expiresAt < now
    · have hres : refreshAccessToken users store secret reqIp now newSecret newId
          = (store, .error .refreshTokenExpired) := by
        unfold refreshAccessToken refreshFind
        simp [hfind, hexp]
      rw [hres]
      simp [hfind, hexp]
    · cases huser : users.find? (fun u => u.id == cand.userId) with
      | none =>
        have hres : refreshAccessToken users store secret reqIp now newSecret newId
            = (store, .error .userInactive) := by
          unfold refreshAccessToken refreshFind
          simp [hfind, hexp, huser]
        have hle := Nat.not_lt.mp hexp
        have hnone : ∀ x ∈ users, ¬ x.id = cand.userId := by
          have hall := List.find?_eq_none.mp huser
          simpa using hall
        rw [hres]
        simp only [hfind, hexp, huser, hle]
        simp [hle]
        exact Or.inl fun x hx => hnone x hx
      | some user =>
        cases hact : user.isActive with
        | false =>
          have hres : refreshAccessToken users store secret reqIp now newSecret newId
              = (store, .error .userInactive) := by
            unfold refreshAccessToken refreshFind
            simp [hfind, hexp, huser, hact]
          have hle := Nat.not_lt.mp hexp
          rw [hres]
          simp [hfind, hexp, huser, hact, hle]
        | true =>
          have hres : (refreshAccessToken users store secret reqIp now newSecret newId).2
              = .ok newSecret := by
            unfold refreshAccessToken refreshFind
            simp [hfind, hexp, huser, hact]
          have hle := Nat.not_lt.mp hexp
          have hmem := List.mem_of_find?_eq_some huser
          have hpu := List.find?_some huser
          simp only [beq_iff_eq] at hpu
          have hex : ∃ x ∈ users, x.id = cand.userId := ⟨user, hmem, hpu⟩
          rw [hres]
          simp [hfind, hexp, huser, hact, hle, hex]

/-- Concrete instantiation of C2: presenting an unknown secret fails with
`InvalidRefreshToken`. -/
theorem refresh_failure_classification_witness :
    (refreshAccessToken [exUser] [exSessionLong] "nope" none 50 "tok2" 11).2
      = .error .invalidRefreshToken :=
  (refresh_failure_classification [exUser] [exSessionLong] "nope" none 50
    "tok2" 11).1.mpr (by decide)

/-! ## C3: concurrent rotation attempts with the same secret -/

/-- C3: the refresh flow is a lookup followed, after suspension points, by
two unconditional writes.  Under the interleaving in which both concurrent
refresh requests execute their lookup before either performs its writes,
both requests validate the same loaded document successfully (so both
respond with success and a fresh secret), and after both commits the store
holds two live successor sessions of the same rotated session, whose
rotation pointer records only the later winner.  At this concrete input the
claimed outcome (exactly one success and one `InvalidRefreshToken` failure)
does not occur. -/
theorem concurrent_refresh_both_succeed :
    refreshFind [exUser] [exSessionLong] "tok1" 50 = .ok exSessionLong ∧
    refreshAccessToken [exUser] [exSessionLong] "tok1" (some "ipA") 50 "na" 21 =
      (refreshCommit [exSessionLong] exSessionLong (some "ipA") 50 "na" 21, .ok "na") ∧
    (let storeA := refreshCommit [exSessionLong] exSessionLong (some "ipA") 50 "na" 21
     let storeB := refreshCommit storeA exSessionLong (some "ipB") 50 "nb" 22
     (findOneByTokenUnrevoked storeB "na").isSome = true ∧
     (findOneByTokenUnrevoked storeB "nb").isSome = true ∧
     (activeSessionsFor storeB 1 50).length = 2 ∧
     (findOneByToken storeB "tok1").map (fun s => s.replacedByToken)
       = some (some "nb")) := by
  refine ⟨rfl, rfl, ?_, ?_, ?_, ?_⟩ <;> decide

/-! ## C4: sign-in revokes prior sessions on the same device only -/

/-- The number of active sessions of a user on a given device. -/
def activeOnDevice (store : Store) (userId : Nat) (deviceId : String) (now : Nat) : Nat :=
  ((activeSessionsFor store userId now).filter
    (fun s => s.deviceInfo.deviceId == deviceId)).length

/-- C4: every successful sign-in first revokes each unrevoked session with the
same user and device id (marking it revoked at `now` without touching any
other field, in particular without a rotation link), leaves sessions of other
devices and other users untouched, and then appends exactly one new session;
consequently signing in twice from device A and then once from device B
leaves exactly one active session on A and one on B. -/
theorem signin_revokes_same_device_only
    (users : List User) (store : Store) (email password : String)
    (deviceInfo : DeviceInfo) (ip ua : Option String) (now : Nat)
    (newSecret : String) (newId : Nat) (user : User)
    (hfind : users.find? (fun u => u.email == email) = some user)
    (hactive : user.isActive = true)
    (hpw : password = user.password) :
    (signIn users store email password deviceInfo ip ua now newSecret newId).2
      = .ok (signInSession user.id deviceInfo ip ua
          (detectSuspiciousActivity store user.id now) now newSecret newId) ∧
    (signIn users store email password deviceInfo ip ua now newSecret newId).1
      = updateManyRevoke store (sameDeviceUnrevoked user.id deviceInfo.deviceId) now
          ++ [signInSession user.id deviceInfo ip ua
              (detectSuspiciousActivity store user.id now) now newSecret newId] ∧
    (∀ s ∈ store, s.userId = user.id → s.deviceInfo.deviceId = deviceInfo.deviceId →
      s.isRevoked = false →
      { s with isRevoked := true, revokedAt := some now }
        ∈ (signIn users store email password deviceInfo ip ua now newSecret newId).1) ∧
    (∀ s ∈ store, (s.userId ≠ user.id ∨ s.deviceInfo.deviceId ≠ deviceInfo.deviceId ∨
        s.isRevoked = true) →
      s ∈ (signIn users store email password deviceInfo ip ua now newSecret newId).1) ∧
    (let st1 := (signIn [exUser] [] "u@example.com" "pw" exDevA none none
        7200000 "r1" 1).1
     let st2 := (signIn [exUser] st1 "u@example.com" "pw" exDevA none none
        7200000 "r2" 2).1
     let st3 := (signIn [exUser] st2 "u@example.com" "pw" exDevB none none
        7200000 "r3" 3).1
     activeOnDevice st3 1 "A" 7200000 = 1 ∧ activeOnDevice st3 1 "B" 7200000 = 1) := by
  subst hpw
  have hres : signIn users store email user.password deviceInfo ip ua now newSecret newId
      = (updateManyRevoke store (sameDeviceUnrevoked user.id deviceInfo.deviceId) now
          ++ [signInSession user.id deviceInfo ip ua
              (detectSuspiciousActivity store user.id now) now newSecret newId],
         .ok (signInSession user.id deviceInfo ip ua
              (detectSuspiciousActivity store user.id now) now newSecret newId)) := by
    unfold signIn
    rw [hfind]
    simp [hactive]
  refine ⟨by rw [hres], by rw [hres], ?_, ?_, by decide⟩
  · intro s hs h1 h2 h3
    rw [hres]
    refine List.mem_append.mpr (Or.inl ?_)
    unfold updateManyRevoke
    refine List.mem_map.mpr ⟨s, hs, ?_⟩
    have hpred : sameDeviceUnrevoked user.id deviceInfo.deviceId s = true := by
      simp [sameDeviceUnrevoked, h1, h2, h3]
    rw [if_pos hpred]
  · intro s hs hdisj
    rw [hres]
    refine List.mem_append.mpr (Or.inl ?_)
    unfold updateManyRevoke
    refine List.mem_map.mpr ⟨s, hs, ?_⟩
    have hpred : sameDeviceUnrevoked user.id deviceInfo.deviceId s = false := by
      rcases hdisj with h | h | h
      · simp [sameDeviceUnrevoked, h]
      · simp [sameDeviceUnrevoked, h]
      · simp [sameDeviceUnrevoked, h]
    rw [hpred]
    simp

/-- Concrete instantiation of C4: signing in on the empty store creates the
expected single fresh session. -/
theorem signin_revokes_same_device_only_witness :
    (signIn [exUser] [] "u@example.com" "pw" exDevA none none 7200000 "r1" 1).2
      = .ok (signInSession 1 exDevA none none
          (detectSuspiciousActivity [] 1 7200000) 7200000 "r1" 1) :=
  (signin_revokes_same_device_only [exUser] [] "u@example.com" "pw" exDevA none none
    7200000 "r1" 1 exUser rfl rfl rfl).1

/-! ## C5: the suspicious-activity flag at sign-in -/

/-- Six long-lived active fixture sessions of user 1, created at instant 0
(outside the one-hour recency window at instant 7200000). -/
def exStore6 : Store :=
  [mkExSession 1 "t1" exDevA 9999999999, mkExSession 2 "t2" exDevA 9999999999,
   mkExSession 3 "t3" exDevA 9999999999, mkExSession 4 "t4" exDevA 9999999999,
   mkExSession 5 "t5" exDevA 9999999999, mkExSession 6 "t6" exDevA 9999999999]

/-- Five long-lived active fixture sessions of user 1, created at instant 0. -/
def exStore5 : Store :=
  [mkExSession 1 "t1" exDevA 9999999999, mkExSession 2 "t2" exDevA 9999999999,
   mkExSession 3 "t3" exDevA 9999999999, mkExSession 4 "t4" exDevA 9999999999,
   mkExSession 5 "t5" exDevA 9999999999]

/-- The detector fires exactly when the user has more than 5 active sessions
or more than 3 distinct device ids among sessions created in the last hour
(regardless of revocation or expiry). -/
theorem detectSuspicious_iff (store : Store) (userId now : Nat) :
    detectSuspiciousActivity store userId now = true ↔
      5 < (activeSessionsFor store userId now).length ∨
      3 < ((store.filter (fun s => s.userId == userId && now - 3600000 < s.createdAt)).map
          (fun s => s.deviceInfo.deviceId)).dedup.length := by
  unfold detectSuspiciousActivity activeSessionsFor
  dsimp only
  split
  · rename_i hA
    simp [hA]
  · rename_i hA
    split
    · rename_i hB
      simp [hA, hB]
    · rename_i hB
      simp [hA, hB]

/-- The store and response of a successful sign-in. -/
theorem signIn_success_eq
    (users : List User) (store : Store) (email : String)
    (deviceInfo : DeviceInfo) (ip ua : Option String) (now : Nat)
    (newSecret : String) (newId : Nat) (user : User)
    (hfind : users.find? (fun u => u.email == email) = some user)
    (hactive : user.isActive = true) :
    signIn users store email user.password deviceInfo ip ua now newSecret newId
      = (updateManyRevoke store (sameDeviceUnrevoked user.id deviceInfo.deviceId) now
          ++ [signInSession user.id deviceInfo ip ua
              (detectSuspiciousActivity store user.id now) now newSecret newId],
         .ok (signInSession user.id deviceInfo ip ua
              (detectSuspiciousActivity store user.id now) now newSecret newId)) := by
  unfold signIn
  rw [hfind]
  simp [hactive]

/-- C5: the session created by a successful sign-in carries
`suspiciousActivity = true` exactly when, evaluated on the pre-revocation
store, the user has more than 5 active sessions or more than 3 distinct
device ids occur among the user's sessions created within the last 60
minutes (regardless of revocation state); sign-in succeeds either way, the
flag only lands in the created session (and the advisory warning).  In
particular, on the fixture store with exactly 6 active sessions the next
sign-in is flagged, and on the fixture store with exactly 5 (and no
rule-B trigger) it is not. -/
theorem signin_suspicious_flag
    (users : List User) (store : Store) (email password : String)
    (deviceInfo : DeviceInfo) (ip ua : Option String) (now : Nat)
    (newSecret : String) (newId : Nat) (user : User) (created : Session)
    (hfind : users.find? (fun u => u.email == email) = some user)
    (hactive : user.isActive = true)
    (hpw : password = user.password)
    (hok : (signIn users store email password deviceInfo ip ua now newSecret newId).2
      = .ok created) :
    (created.securityInfo.suspiciousActivity = true ↔
      (5 < (activeSessionsFor store user.id now).length ∨
       3 < ((store.filter (fun s => s.userId == user.id && now - 3600000 < s.createdAt)).map
           (fun s => s.deviceInfo.deviceId)).dedup.length)) ∧
    created = signInSession user.id deviceInfo ip ua
      (detectSuspiciousActivity store user.id now) now newSecret newId ∧
    ((signIn [exUser] exStore6 "u@example.com" "pw" exDevA none none 7200000
        "r6" 60).2.map (fun c => c.securityInfo.suspiciousActivity) = .ok true) ∧
    ((signIn [exUser] exStore5 "u@example.com" "pw" exDevA none none 7200000
        "r5" 50).2.map (fun c => c.securityInfo.suspiciousActivity) = .ok false) := by
  subst hpw
  have hres := signIn_success_eq users store email deviceInfo ip ua now newSecret
    newId user hfind hactive
  rw [hres] at hok
  simp only [Except.ok.injEq] at hok
  subst hok
  refine ⟨?_, rfl, rfl, rfl⟩
  simpa [signInSession] using detectSuspicious_iff store user.id now

/-- Concrete instantiation of C5: with 6 active sessions the created session
is flagged suspicious. -/
theorem signin_suspicious_flag_witness :
    (signInSession 1 exDevA none none (detectSuspiciousActivity exStore6 1 7200000)
        7200000 "r6" 60).securityInfo.suspiciousActivity = true :=
  (signin_suspicious_flag [exUser] exStore6 "u@example.com" "pw" exDevA none none
    7200000 "r6" 60 exUser
    (signInSession 1 exDevA none none (detectSuspiciousActivity exStore6 1 7200000)
      7200000 "r6" 60) rfl rfl rfl rfl).1.mpr (Or.inl (by decide))

/-! ## C6: deactivating a user revokes all of the user's active sessions -/

/-- Three active fixture sessions of user 1. -/
def exStore3 : Store :=
  [mkExSession 1 "t1" exDevA 9999999999, mkExSession 2 "t2" exDevA 9999999999,
   mkExSession 3 "t3" exDevB 9999999999]

/-- C6: toggling an active user deactivates them and, in the same operation,
marks every unrevoked session of that user revoked at `now` (already-revoked
sessions and other users' sessions are passed through unchanged), so the user
has no active sessions afterwards; toggling an inactive user re-activates
them and touches no session at all. -/
theorem toggle_deactivation_cascade
    (users : List User) (store : Store) (userId now : Nat) (user : User)
    (hfind : users.find? (fun u => u.id == userId) = some user) :
    (user.isActive = true →
      (toggleUserStatus users store userId now).2
        = updateManyRevoke store (fun s => s.userId == userId && !s.isRevoked) now ∧
      (∀ s ∈ store, s.userId = userId → s.isRevoked = false →
        { s with isRevoked := true, revokedAt := some now }
          ∈ (toggleUserStatus users store userId now).2) ∧
      (∀ s ∈ store, (s.isRevoked = true ∨ s.userId ≠ userId) →
        s ∈ (toggleUserStatus users store userId now).2) ∧
      activeSessionsFor (toggleUserStatus users store userId now).2 userId now = []) ∧
    (user.isActive = false → (toggleUserStatus users store userId now).2 = store) := by
  constructor
  · intro hactive
    have hres : (toggleUserStatus users store userId now).2
        = updateManyRevoke store (fun s => s.userId == userId && !s.isRevoked) now := by
      unfold toggleUserStatus
      rw [hfind]
      simp [hactive]
    refine ⟨hres, ?_, ?_, ?_⟩
    · intro s hs h1 h2
      rw [hres]
      unfold updateManyRevoke
      refine List.mem_map.mpr ⟨s, hs, ?_⟩
      have hpred : (s.userId == userId && !s.isRevoked) = true := by
        simp [h1, h2]
      rw [if_pos hpred]
    · intro s hs hdisj
      rw [hres]
      unfold updateManyRevoke
      refine List.mem_map.mpr ⟨s, hs, ?_⟩
      have hpred : (s.userId == userId && !s.isRevoked) = false := by
        rcases hdisj with h | h
        · simp [h]
        · simp [h]
      simp [hpred]
    · rw [hres]
      unfold activeSessionsFor
      rw [List.filter_eq_nil_iff]
      intro s1 hs1
      unfold updateManyRevoke at hs1
      rcases List.mem_map.mp hs1 with ⟨s0, hs0, heq⟩
      by_cases hp : (s0.userId == userId && !s0.isRevoked) = true
      · rw [if_pos hp] at heq
        subst heq
        simp
      · rw [if_neg hp] at heq
        subst heq
        have hfalse : (s0.userId == userId && !s0.isRevoked) = false :=
          Bool.eq_false_iff.mpr hp
        intro hcontra
        simp only [Bool.and_eq_true] at hcontra
        rw [hcontra.1.1, hcontra.1.2] at hfalse
        simp at hfalse
  · intro hinactive
    unfold toggleUserStatus
    rw [hfind]
    simp [hinactive]

/-- Concrete instantiation of C6: deactivating user 1 with 3 active sessions
leaves 0 active sessions and `revokedAt` set on all 3. -/
theorem toggle_deactivation_cascade_witness :
    activeSessionsFor (toggleUserStatus [exUser] exStore3 1 5).2 1 5 = [] ∧
    ∀ s ∈ (toggleUserStatus [exUser] exStore3 1 5).2, s.revokedAt = some 5 := by
  refine ⟨((toggle_deactivation_cascade [exUser] exStore3 1 5 exUser rfl).1 rfl).2.2.2, ?_⟩
  decide

/-! ## C7: repeated revocation -/

/-- C7 counterexample: logging out an already-revoked session (revoked at
instant 5) at instant 9 returns success but rewrites the stored record,
overwriting `revokedAt` with 9; the record does not stay unchanged and the
original revocation instant is lost. -/
theorem re_revocation_counterexample :
    exRevokedSession.revokedAt = some 5 ∧
    (logout [exRevokedSession] (some "tok1") 9).1 = 200 ∧
    (logout [exRevokedSession] (some "tok1") 9).2 ≠ [exRevokedSession] ∧
    ∀ s ∈ (logout [exRevokedSession] (some "tok1") 9).2, s.revokedAt = some 9 := by
  refine ⟨rfl, rfl, by decide, by decide⟩

/-- C7 (amended): revoking an already-revoked session via single-device
logout or explicit session revocation succeeds without error and keeps the
session revoked, and the saved record agrees with the stored one on every
field except `revokedAt`, which is overwritten with the instant of the
repeated revocation instead of keeping the instant of the original
transition. -/
theorem re_revocation_keeps_revoked_overwrites_revokedAt
    (store : Store) (now : Nat) :
    (∀ secret storedToken, findOneByToken store secret = some storedToken →
      storedToken.isRevoked = true →
      (logout store (some secret) now).1 = 200 ∧
      (logout store (some secret) now).2
        = saveById store { storedToken with revokedAt := some now }) ∧
    (∀ userId sessionId session,
      store.find? (fun s => s.id == sessionId && s.userId == userId) = some session →
      session.isRevoked = true →
      (revokeSession store userId sessionId now).1 = 200 ∧
      (revokeSession store userId sessionId now).2
        = saveById store { session with revokedAt := some now }) := by
  constructor
  · intro secret storedToken hfound hrev
    have hdoc : ({ storedToken with isRevoked := true, revokedAt := some now } : Session)
        = { storedToken with revokedAt := some now } := by
      rw [hrev]
    have hres : logout store (some secret) now
        = (200, saveById store
            { storedToken with isRevoked := true, revokedAt := some now }) := by
      unfold logout
      dsimp only
      rw [hfound]
    rw [hres, hdoc]
    exact ⟨rfl, rfl⟩
  · intro userId sessionId session hfound hrev
    have hdoc : ({ session with isRevoked := true, revokedAt := some now } : Session)
        = { session with revokedAt := some now } := by
      rw [hrev]
    have hres : revokeSession store userId sessionId now
        = (200, saveById store
            { session with isRevoked := true, revokedAt := some now }) := by
      unfold revokeSession
      rw [hfound]
    rw [hres, hdoc]
    exact ⟨rfl, rfl⟩

/-- Concrete instantiation of C7 (amended): re-revoking the fixture session
revoked at instant 5 by a logout at instant 9 saves the same record with
`revokedAt` now 9. -/
theorem re_revocation_overwrite_witness :
    (logout [exRevokedSession] (some "tok1") 9).2
      = saveById [exRevokedSession] { exRevokedSession with revokedAt := some 9 } :=
  ((re_revocation_keeps_revoked_overwrites_revokedAt [exRevokedSession] 9).1
    "tok1" exRevokedSession rfl rfl).2

/-! ## C8: logout is idempotent at the interface -/

/-- C8: a logout presenting a secret unknown to the store returns success
with the store untouched; a logout presenting the secret of an
already-revoked session also returns success; and whenever the secret
matches a session, that session is saved revoked at `now` with its rotation
pointer untouched — no rotation link is created. -/
theorem logout_idempotent_interface (store : Store) (now : Nat) :
    (∀ secret, findOneByToken store secret = none →
      logout store (some secret) now = (200, store)) ∧
    (∀ secret storedToken, findOneByToken store secret = some storedToken →
      storedToken.isRevoked = true →
      (logout store (some secret) now).1 = 200) ∧
    (∀ secret storedToken, findOneByToken store secret = some storedToken →
      (logout store (some secret) now).1 = 200 ∧
      (logout store (some secret) now).2
        = saveById store { storedToken with isRevoked := true, revokedAt := some now } ∧
      ({ storedToken with isRevoked := true, revokedAt := some now } : Session).replacedByToken
        = storedToken.replacedByToken) := by
  have hfound_eq : ∀ secret storedToken,
      findOneByToken store secret = some storedToken →
      logout store (some secret) now
        = (200, saveById store
            { storedToken with isRevoked := true, revokedAt := some now }) := by
    intro secret storedToken hfound
    unfold logout
    dsimp only
    rw [hfound]
  refine ⟨?_, ?_, ?_⟩
  · intro secret hnone
    unfold logout
    dsimp only
    rw [hnone]
  · intro secret storedToken hfound _
    rw [hfound_eq secret storedToken hfound]
  · intro secret storedToken hfound
    rw [hfound_eq secret storedToken hfound]
    exact ⟨rfl, rfl, rfl⟩

/-- Concrete instantiation of C8: logging out with an unknown secret returns
success and leaves the store untouched. -/
theorem logout_idempotent_interface_witness :
    logout [exSessionLong] (some "zz") 3 = (200, [exSessionLong]) :=
  (logout_idempotent_interface [exSessionLong] 3).1 "zz" rfl

/-! ## C9: the rotation pointer is set only by refresh rotation -/

/-- One application-level mutation of the session collection: any of the
store-writing flows, with arbitrary request data. -/
inductive SessionStep : Store → Store → Prop where
  | signUpStep (store : Store) (userId : Nat) (deviceInfo : DeviceInfo)
      (ipAddress userAgent : Option String) (now : Nat)
      (newSecret : String) (newId : Nat) :
      SessionStep store
        (signUp store userId deviceInfo ipAddress userAgent now newSecret newId)
  | signInStep (users : List User) (store : Store) (email password : String)
      (deviceInfo : DeviceInfo) (ipAddress userAgent : Option String) (now : Nat)
      (newSecret : String) (newId : Nat) :
      SessionStep store
        (signIn users store email password deviceInfo ipAddress userAgent
          now newSecret newId).1
  | refreshStep (users : List User) (store : Store) (secret : String)
      (reqIp : Option String) (now : Nat) (newSecret : String) (newId : Nat) :
      SessionStep store
        (refreshAccessToken users store secret reqIp now newSecret newId).1
  | logoutStep (store : Store) (refreshToken : Option String) (now : Nat) :
      SessionStep store (logout store refreshToken now).2
  | logoutAllStep (store : Store) (userId : Nat) (now : Nat) :
      SessionStep store (logoutAllDevices store userId now).1
  | revokeSessionStep (store : Store) (userId sessionId : Nat) (now : Nat) :
      SessionStep store (revokeSession store userId sessionId now).2
  | toggleStep (users : List User) (store : Store) (userId : Nat) (now : Nat) :
      SessionStep store (toggleUserStatus users store userId now).2

/-- The store-writing flows other than refresh rotation. -/
inductive NonRotationStep : Store → Store → Prop where
  | signUpStep (store : Store) (userId : Nat) (deviceInfo : DeviceInfo)
      (ipAddress userAgent : Option String) (now : Nat)
      (newSecret : String) (newId : Nat) :
      NonRotationStep store
        (signUp store userId deviceInfo ipAddress userAgent now newSecret newId)
  | signInStep (users : List User) (store : Store) (email password : String)
      (deviceInfo : DeviceInfo) (ipAddress userAgent : Option String) (now : Nat)
      (newSecret : String) (newId : Nat) :
      NonRotationStep store
        (signIn users store email password deviceInfo ipAddress userAgent
          now newSecret newId).1
  | logoutStep (store : Store) (refreshToken : Option String) (now : Nat) :
      NonRotationStep store (logout store refreshToken now).2
  | logoutAllStep (store : Store) (userId : Nat) (now : Nat) :
      NonRotationStep store (logoutAllDevices store userId now).1
  | revokeSessionStep (store : Store) (userId sessionId : Nat) (now : Nat) :
      NonRotationStep store (revokeSession store userId sessionId now).2
  | toggleStep (users : List User) (store : Store) (userId : Nat) (now : Nat) :
      NonRotationStep store (toggleUserStatus users store userId now).2

/-- A session carrying a rotation pointer is revoked. -/
def RotationLinkOnlyOnRevoked (store : Store) : Prop :=
  ∀ s ∈ store, s.replacedByToken ≠ none → s.isRevoked = true

/-- Every session of `result` is either freshly created without a rotation
pointer, or stems from a session of `store` with the same id and the same
rotation pointer (and is either that very session or a revoked update of
it). -/
def TracksRotationPointer (store result : Store) : Prop :=
  ∀ s1 ∈ result, s1.replacedByToken = none ∨
    ∃ s0 ∈ store, s0.id = s1.id ∧ s1.replacedByToken = s0.replacedByToken ∧
      (s1 = s0 ∨ s1.isRevoked = true)

theorem tracks_refl (store : Store) : TracksRotationPointer store store := by
  intro s1 hs1
  exact Or.inr ⟨s1, hs1, rfl, rfl, Or.inl rfl⟩

theorem tracks_updateManyRevoke (store : Store) (matched : Session → Bool) (now : Nat) :
    TracksRotationPointer store (updateManyRevoke store matched now) := by
  intro s1 hs1
  rcases mem_updateManyRevoke hs1 with ⟨s0, hs0, heq | heq⟩
  · exact Or.inr ⟨s0, hs0, by rw [heq], by rw [heq], Or.inl heq⟩
  · subst heq
    exact Or.inr ⟨s0, hs0, rfl, rfl, Or.inr rfl⟩

theorem tracks_append_new {store st1 : Store} {newS : Session}
    (h : TracksRotationPointer store st1) (hnew : newS.replacedByToken = none) :
    TracksRotationPointer store (st1 ++ [newS]) := by
  intro s1 hs1
  rcases List.mem_append.mp hs1 with h1 | h1
  · exact h s1 h1
  · rw [List.mem_singleton] at h1
    subst h1
    exact Or.inl hnew

theorem tracks_saveRevoked {store : Store} {storedToken : Session} (now : Nat)
    (hmem : storedToken ∈ store) :
    TracksRotationPointer store
      (saveById store { storedToken with isRevoked := true, revokedAt := some now }) := by
  intro s1 hs1
  rcases mem_saveById hs1 with heq | ⟨h1, _⟩
  · subst heq
    exact Or.inr ⟨storedToken, hmem, rfl, rfl, Or.inr rfl⟩
  · exact Or.inr ⟨s1, h1, rfl, rfl, Or.inl rfl⟩

theorem tracks_signUp (store : Store) (userId : Nat) (deviceInfo : DeviceInfo)
    (ipAddress userAgent : Option String) (now : Nat)
    (newSecret : String) (newId : Nat) :
    TracksRotationPointer store
      (signUp store userId deviceInfo ipAddress userAgent now newSecret newId) :=
  tracks_append_new (tracks_refl store) rfl

theorem tracks_signIn (users : List User) (store : Store) (email password : String)
    (deviceInfo : DeviceInfo) (ipAddress userAgent : Option String) (now : Nat)
    (newSecret : String) (newId : Nat) :
    TracksRotationPointer store
      (signIn users store email password deviceInfo ipAddress userAgent
        now newSecret newId).1 := by
  unfold signIn
  split
  · exact tracks_refl store
  · split
    · exact tracks_refl store
    · split
      · exact tracks_refl store
      · exact tracks_append_new (tracks_updateManyRevoke store _ now) rfl

theorem tracks_logout (store : Store) (refreshToken : Option String) (now : Nat) :
    TracksRotationPointer store (logout store refreshToken now).2 := by
  unfold logout
  split
  · exact tracks_refl store
  · rename_i secret
    cases hfound : findOneByToken store secret with
    | none =>
      dsimp only
      exact tracks_refl store
    | some storedToken =>
      dsimp only
      exact tracks_saveRevoked now
        (List.mem_of_find?_eq_some hfound)

theorem tracks_logoutAll (store : Store) (userId : Nat) (now : Nat) :
    TracksRotationPointer store (logoutAllDevices store userId now).1 :=
  tracks_updateManyRevoke store _ now

theorem tracks_revokeSession (store : Store) (userId sessionId : Nat) (now : Nat) :
    TracksRotationPointer store (revokeSession store userId sessionId now).2 := by
  unfold revokeSession
  cases hfound : store.find? (fun s => s.id == sessionId && s.userId == userId) with
  | none =>
    dsimp only
    exact tracks_refl store
  | some session =>
    dsimp only
    exact tracks_saveRevoked now (List.mem_of_find?_eq_some hfound)

theorem tracks_toggle (users : List User) (store : Store) (userId : Nat) (now : Nat) :
    TracksRotationPointer store (toggleUserStatus users store userId now).2 := by
  unfold toggleUserStatus
  split
  · exact tracks_refl store
  · dsimp only
    split
    · exact tracks_updateManyRevoke store _ now
    · exact tracks_refl store

theorem tracks_nonRotationStep {store store1 : Store}
    (h : NonRotationStep store store1) : TracksRotationPointer store store1 := by
  cases h with
  | signUpStep store userId deviceInfo ipAddress userAgent now newSecret newId =>
    exact tracks_signUp store userId deviceInfo ipAddress userAgent now newSecret newId
  | signInStep users store email password deviceInfo ipAddress userAgent now newSecret newId =>
    exact tracks_signIn users store email password deviceInfo ipAddress userAgent
      now newSecret newId
  | logoutStep store refreshToken now => exact tracks_logout store refreshToken now
  | logoutAllStep store userId now => exact tracks_logoutAll store userId now
  | revokeSessionStep store userId sessionId now =>
    exact tracks_revokeSession store userId sessionId now
  | toggleStep users store userId now => exact tracks_toggle users store userId now

/-- Any session present after the refresh flow is an old session, a revoked
session, or carries no rotation pointer. -/
theorem mem_refresh_fst {users : List User} {store : Store} {secret : String}
    {reqIp : Option String} {now : Nat} {newSecret : String} {newId : Nat}
    {s1 : Session}
    (h : s1 ∈ (refreshAccessToken users store secret reqIp now newSecret newId).1) :
    s1 ∈ store ∨ s1.isRevoked = true ∨ s1.replacedByToken = none := by
  unfold refreshAccessToken at h
  split at h
  · exact Or.inl h
  · unfold refreshCommit at h
    rcases List.mem_append.mp h with h1 | h1
    · rcases mem_saveById h1 with heq | ⟨hmem, _⟩
      · subst heq
        exact Or.inr (Or.inl rfl)
      · exact Or.inl hmem
    · rw [List.mem_singleton] at h1
      subst h1
      exact Or.inr (Or.inr rfl)

/-- C9: the rotation pointer `replacedByToken` is set only by refresh
rotation: every store-writing flow preserves the invariant that a session
carrying a rotation pointer is revoked (so the invariant holds in every
store reachable from the empty one), and every flow other than refresh
leaves each surviving session's rotation pointer exactly as it was (new
sessions are created without one) — in particular sign-in's same-device
revocation, both logout flows, explicit session revocation and the
deactivation cascade never set it. -/
theorem rotation_pointer_only_set_by_refresh :
    (∀ store store1, SessionStep store store1 →
      RotationLinkOnlyOnRevoked store → RotationLinkOnlyOnRevoked store1) ∧
    (∀ store, Relation.ReflTransGen SessionStep [] store →
      RotationLinkOnlyOnRevoked store) ∧
    (∀ store store1, NonRotationStep store store1 →
      ∀ s1 ∈ store1, s1.replacedByToken = none ∨
        ∃ s0 ∈ store, s0.id = s1.id ∧ s1.replacedByToken = s0.replacedByToken) := by
  have htracks_inv : ∀ store store1, TracksRotationPointer store store1 →
      RotationLinkOnlyOnRevoked store → RotationLinkOnlyOnRevoked store1 := by
    intro store store1 htr hinv s1 hs1 hne
    rcases htr s1 hs1 with hnone | ⟨s0, hs0, _, hrep, hcase⟩
    · exact absurd hnone hne
    · rcases hcase with heq | hrev
      · subst heq
        exact hinv s1 hs0 hne
      · exact hrev
  have hpres : ∀ store store1, SessionStep store store1 →
      RotationLinkOnlyOnRevoked store → RotationLinkOnlyOnRevoked store1 := by
    intro store store1 hstep hinv
    cases hstep with
    | signUpStep store userId deviceInfo ipAddress userAgent now newSecret newId =>
      exact htracks_inv _ _
        (tracks_signUp store userId deviceInfo ipAddress userAgent now newSecret newId)
        hinv
    | signInStep users store email password deviceInfo ipAddress userAgent now newSecret newId =>
      exact htracks_inv _ _
        (tracks_signIn users store email password deviceInfo ipAddress userAgent
          now newSecret newId) hinv
    | refreshStep users store secret reqIp now newSecret newId =>
      intro s1 hs1 hne
      rcases mem_refresh_fst hs1 with hmem | hrev | hnone
      · exact hinv s1 hmem hne
      · exact hrev
      · exact absurd hnone hne
    | logoutStep store refreshToken now =>
      exact htracks_inv _ _ (tracks_logout store refreshToken now) hinv
    | logoutAllStep store userId now =>
      exact htracks_inv _ _ (tracks_logoutAll store userId now) hinv
    | revokeSessionStep store userId sessionId now =>
      exact htracks_inv _ _ (tracks_revokeSession store userId sessionId now) hinv
    | toggleStep users store userId now =>
      exact htracks_inv _ _ (tracks_toggle users store userId now) hinv
  refine ⟨hpres, ?_, ?_⟩
  · intro store hreach
    induction hreach with
    | refl =>
      intro s hs
      exact absurd hs (List.not_mem_nil s)
    | tail _ hstep ih =>
      exact hpres _ _ hstep ih
  · intro store store1 hstep s1 hs1
    rcases tracks_nonRotationStep hstep s1 hs1 with hnone | ⟨s0, hs0, hid, hrep, _⟩
    · exact Or.inl hnone
    · exact Or.inr ⟨s0, hs0, hid, hrep⟩

/-- Concrete instantiation of C9: the session revoked by a concrete logout
keeps its (absent) rotation pointer. -/
theorem rotation_pointer_only_set_by_refresh_witness :
    ∀ s1 ∈ (logout [exSessionLong] (some "tok1") 7).2,
      s1.replacedByToken = none ∨
      ∃ s0 ∈ [exSessionLong], s0.id = s1.id ∧ s1.replacedByToken = s0.replacedByToken :=
  rotation_pointer_only_set_by_refresh.2.2 [exSessionLong]
    (logout [exSessionLong] (some "tok1") 7).2
    (NonRotationStep.logoutStep [exSessionLong] (some "tok1") 7)

end Affordly
